import Mathlib

/-!
Shallow embedding of the tax computation engine of the Polish B2B tax
calculator (2026 edition).

Sources embedded:
* `src/app/lib/tax-calculator.ts` — the `TaxCalculator` class (regime
  calculators, depreciation, VAT benefit, yearly ZUS, `compareAll`).
* `src/unnamed/part_003` — the `ContributionCalculator` class
  (`calculateHealthInsurance` with the flat-rate tier multiplier) and
  `DEFAULT_2026_CONFIG`.

JavaScript numbers are modelled as exact rationals (`ℚ`); every arithmetic
operation used by the source (+, -, *, /, min, max, comparisons) is exact on
the inputs the claims quantify over.  JavaScript truthiness tests on
optional numeric fields (`!car.leasingMonths`, `input.yearlyRevenueToDate && …`)
are modelled explicitly: a value is falsy iff it is absent or equal to 0.
Division by zero: JavaScript yields `Infinity` where `ℚ` yields 0; the one
place this matters (`limit / carPriceNetto` with price 0, where JS produces
`min(1, Infinity) = 1`) is modelled with an explicit branch so the embedding
agrees with the JS semantics at price = 0.
-/

namespace TaxCalc

/-- `EngineType` from tax-calculator.ts. -/
inductive EngineType where
  | combustion
  | hybrid_plugin
  | electric
  deriving DecidableEq, Repr

/-- `FinancingMethod` from tax-calculator.ts. -/
inductive FinancingMethod where
  | cash
  | leasing
  deriving DecidableEq, Repr

/-- `UsageType` from tax-calculator.ts. -/
inductive UsageType where
  | mixed
  | full_business
  deriving DecidableEq, Repr

/-- `ZusType` from tax-calculator.ts / part_003. -/
inductive ZusType where
  | ulga_na_start
  | preferencyjny
  | maly_plus
  | duzy
  deriving DecidableEq, Repr

/-- `TaxationForm` from tax-calculator.ts / part_003. -/
inductive TaxationForm where
  | liniowy
  | skala
  | ryczalt
  deriving DecidableEq, Repr, Inhabited

/-- `CAR_DEPRECIATION_LIMITS` (tax-calculator.ts lines 16-20). -/
def CAR_DEPRECIATION_LIMITS : EngineType → ℚ
  | .combustion => 100000
  | .hybrid_plugin => 150000
  | .electric => 225000

/-- `CarInvestment` (tax-calculator.ts lines 60-71).  The three
leasing-specific fields are optional in the source (`?:`), hence `Option ℚ`.
The `name` field is never read by the engine and is omitted. -/
structure CarInvestment where
  carPriceNetto : ℚ
  engineType : EngineType
  financingMethod : FinancingMethod
  usageType : UsageType
  leasingInitialPaymentPercent : Option ℚ := none
  leasingMonths : Option ℚ := none
  leasingBuyoutPercent : Option ℚ := none
  monthOfPurchase : ℚ
  deriving DecidableEq, Repr

/-- `EquipmentInvestment` (tax-calculator.ts lines 73-77); `name` omitted. -/
structure EquipmentInvestment where
  costNetto : ℚ
  monthOfPurchase : ℚ
  deriving DecidableEq, Repr

/-- `TaxYearConfigInput` (tax-calculator.ts lines 79-93). -/
structure TaxYearConfigInput where
  year : ℚ
  minimumWageGross : ℚ
  averageWagePrognosis : ℚ
  averageWageQ4PreviousYear : ℚ
  retirementRate : ℚ
  disabilityRate : ℚ
  accidentRate : ℚ
  sicknessRate : ℚ
  workFundRate : ℚ
  solidarityFundRate : ℚ
  healthInsuranceRateSkala : ℚ
  healthInsuranceRateLiniowy : ℚ
  healthInsuranceLimitLinear : ℚ
  deriving DecidableEq, Repr

/-- `ScenarioConfig` (tax-calculator.ts lines 95-104). -/
structure ScenarioConfig where
  yearlyRevenueNetto : ℚ
  yearlyFixedCosts : ℚ
  vatPayer : Bool
  vatRateMixed : ℚ
  zusType : ZusType
  carInvestments : List CarInvestment
  equipmentInvestments : List EquipmentInvestment
  taxYearConfig : Option TaxYearConfigInput := none
  deriving DecidableEq, Repr

/-- The `breakdown` record inside `TaxResult` (tax-calculator.ts lines 115-119). -/
structure Breakdown where
  carDepreciationDeduction : ℚ
  equipmentDepreciationDeduction : ℚ
  vatBenefit : ℚ
  deriving DecidableEq, Repr, Inhabited

/-- `TaxResult` (tax-calculator.ts lines 106-120). -/
structure TaxResult where
  taxationForm : TaxationForm
  grossRevenue : ℚ
  totalCosts : ℚ
  taxableIncome : ℚ
  incomeTax : ℚ
  healthInsurance : ℚ
  zusTotal : ℚ
  netCashInHand : ℚ
  breakdown : Breakdown
  deriving DecidableEq, Repr, Inhabited

/-- JavaScript truthiness of an optional numeric field: falsy iff absent or 0
(the source tests `!car.leasingMonths` etc.). -/
def optFalsy (x : Option ℚ) : Bool :=
  decide (x.getD 0 = 0)

/-- The health-insurance rate triple used by `getHealthInsuranceRates`
(tax-calculator.ts lines 35-39 and 140-149). -/
structure HealthRates where
  liniowy : ℚ
  skala : ℚ
  ryczalt : ℚ
  deriving DecidableEq, Repr

/-- `TaxCalculator.getZUSMonthly` (tax-calculator.ts lines 126-135): the
supplied config is ignored; hardcoded 2026 monthly tiers are returned. -/
def getZUSMonthly (zusType : ZusType) (_config : Option TaxYearConfigInput) : ℚ :=
  match zusType with
  | .ulga_na_start => 0
  | .preferencyjny => 650
  | .maly_plus => 1700
  | .duzy => 1900

/-- `TaxCalculator.getHealthInsuranceRates` (tax-calculator.ts lines 140-149). -/
def getHealthInsuranceRates (config : Option TaxYearConfigInput) : HealthRates :=
  match config with
  | some c =>
      { liniowy := c.healthInsuranceRateLiniowy
        skala := c.healthInsuranceRateSkala
        ryczalt := c.healthInsuranceRateLiniowy }
  | none => { liniowy := 0.049, skala := 0.09, ryczalt := 0.049 }

/-- `TaxCalculator.getHealthInsuranceLimit` (tax-calculator.ts lines 154-159). -/
def getHealthInsuranceLimit (config : Option TaxYearConfigInput) : ℚ :=
  match config with
  | some c => c.healthInsuranceLimitLinear
  | none => 11000

/-- The message of the error thrown at tax-calculator.ts line 178. -/
def leasingErrMsg : String := "Leasing parameters required for leasing financing method"

/-- `TaxCalculator.calculateCarDepreciation` (tax-calculator.ts lines 164-203).
The throw of `Error('Leasing parameters required for leasing financing
method')` is modelled as `Except.error`.  The JS guard
`!car.leasingMonths || !car.leasingInitialPaymentPercent || !car.leasingBuyoutPercent`
fires when any of the three is absent OR equal to 0 (JS falsiness).
`Math.min(1, limit / price)` at price = 0 gives `min(1, Infinity) = 1` in JS,
hence the explicit branch. -/
def calculateCarDepreciation (car : CarInvestment) : Except String ℚ :=
  let limit := CAR_DEPRECIATION_LIMITS car.engineType
  match car.financingMethod with
  | .cash =>
      let depreciableAmount := min car.carPriceNetto limit
      let monthsInYear := 13 - car.monthOfPurchase
      .ok (depreciableAmount * 0.20 * monthsInYear / 12)
  | .leasing =>
      if optFalsy car.leasingMonths || optFalsy car.leasingInitialPaymentPercent
          || optFalsy car.leasingBuyoutPercent then
        .error leasingErrMsg
      else
        let lm := car.leasingMonths.getD 0
        let initialPayment := car.carPriceNetto * (car.leasingInitialPaymentPercent.getD 0 / 100)
        let buyout := car.carPriceNetto * (car.leasingBuyoutPercent.getD 0 / 100)
        let capitalPart := car.carPriceNetto - initialPayment - buyout
        let deductibleRat :=
          if car.carPriceNetto = 0 then 1 else min 1 (limit / car.carPriceNetto)
        let monthsInYear := min (13 - car.monthOfPurchase) lm
        let monthlyCapital := capitalPart / lm
        let yearlyCapitalDeductible := monthlyCapital * monthsInYear * deductibleRat
        let initialPaymentDeductible := initialPayment * deductibleRat
        let yearlyInterest := capitalPart * 0.05 * monthsInYear / 12
        .ok (initialPaymentDeductible + yearlyCapitalDeductible + yearlyInterest)

/-- `TaxCalculator.calculateCarVATBenefit` (tax-calculator.ts lines 208-217). -/
def calculateCarVATBenefit (car : CarInvestment) : ℚ :=
  let vatAmount := car.carPriceNetto * 0.23
  match car.usageType with
  | .full_business => vatAmount
  | .mixed => vatAmount * 0.50

/-- `TaxCalculator.calculateEquipmentDepreciation` (tax-calculator.ts lines 222-226). -/
def calculateEquipmentDepreciation (e : EquipmentInvestment) : ℚ :=
  let monthsInYear := 13 - e.monthOfPurchase
  e.costNetto * 0.30 * monthsInYear / 12

/-- `TaxCalculator.calculateYearlyZUS` (tax-calculator.ts lines 231-234). -/
def calculateYearlyZUS (zusType : ZusType) (config : Option TaxYearConfigInput) : ℚ :=
  getZUSMonthly zusType config * 12

/-- Sum of `calculateCarDepreciation` over the scenario's cars, in source
order, aborting at the first throw — the `forEach` accumulation of
tax-calculator.ts lines 290-293 / 351-354 under JS exception semantics. -/
def sumCarDepreciation : List CarInvestment → Except String ℚ
  | [] => .ok 0
  | car :: rest =>
      match calculateCarDepreciation car with
      | .error e => .error e
      | .ok d =>
          match sumCarDepreciation rest with
          | .error e => .error e
          | .ok s => .ok (d + s)

/-- Sum of `calculateEquipmentDepreciation` over the scenario's equipment
(tax-calculator.ts lines 296-299 / 357-360). -/
def sumEquipmentDepreciation (l : List EquipmentInvestment) : ℚ :=
  (l.map calculateEquipmentDepreciation).sum

/-- The VAT-benefit accumulation appearing verbatim in all three regime
calculators (tax-calculator.ts lines 252-260, 314-322, 385-393): 0 unless
`vatPayer`; otherwise each car contributes `calculateCarVATBenefit × vatRateMixed`
and each equipment `costNetto × 0.23 × vatRateMixed`. -/
def scenarioVatBenefit (cfg : ScenarioConfig) : ℚ :=
  if cfg.vatPayer then
    (cfg.carInvestments.map (fun car => calculateCarVATBenefit car * cfg.vatRateMixed)).sum
      + (cfg.equipmentInvestments.map (fun e => e.costNetto * 0.23 * cfg.vatRateMixed)).sum
  else 0

/-- `TaxCalculator.calculateRyczalt` (tax-calculator.ts lines 239-279).
No investment depreciation is computed, so the function is total. -/
def calculateRyczalt (cfg : ScenarioConfig) : TaxResult :=
  let ryczaltRate : ℚ := 0.12
  let grossRevenue := cfg.yearlyRevenueNetto
  let incomeTax := grossRevenue * ryczaltRate
  let healthInsurance : ℚ := 6000
  let zusTotal := calculateYearlyZUS cfg.zusType cfg.taxYearConfig
  let vatBenefit := scenarioVatBenefit cfg
  let netCashInHand := grossRevenue - incomeTax - healthInsurance - zusTotal + vatBenefit
  { taxationForm := .ryczalt
    grossRevenue := grossRevenue
    totalCosts := 0
    taxableIncome := grossRevenue
    incomeTax := incomeTax
    healthInsurance := healthInsurance
    zusTotal := zusTotal
    netCashInHand := netCashInHand
    breakdown :=
      { carDepreciationDeduction := 0
        equipmentDepreciationDeduction := 0
        vatBenefit := vatBenefit } }

/-- The body of `TaxCalculator.calculateLiniowy` (tax-calculator.ts lines
284-341) after the per-car depreciation sum `carDepreciation` has been
computed; everything past that point is total. -/
def calculateLiniowyCore (cfg : ScenarioConfig) (carDepreciation : ℚ) : TaxResult :=
  let grossRevenue := cfg.yearlyRevenueNetto
  let healthInsuranceRates := getHealthInsuranceRates cfg.taxYearConfig
  let healthInsuranceLimit := getHealthInsuranceLimit cfg.taxYearConfig
  let equipmentDepreciation := sumEquipmentDepreciation cfg.equipmentInvestments
  let totalCosts := cfg.yearlyFixedCosts + carDepreciation + equipmentDepreciation
  let taxableIncome := max 0 (grossRevenue - totalCosts)
  let incomeTax := taxableIncome * 0.19
  let healthInsurance := min (taxableIncome * healthInsuranceRates.liniowy) healthInsuranceLimit
  let zusTotal := calculateYearlyZUS cfg.zusType cfg.taxYearConfig
  let vatBenefit := scenarioVatBenefit cfg
  let netCashInHand :=
    grossRevenue - totalCosts - incomeTax - healthInsurance - zusTotal + vatBenefit
  { taxationForm := .liniowy
    grossRevenue := grossRevenue
    totalCosts := totalCosts
    taxableIncome := taxableIncome
    incomeTax := incomeTax
    healthInsurance := healthInsurance
    zusTotal := zusTotal
    netCashInHand := netCashInHand
    breakdown :=
      { carDepreciationDeduction := carDepreciation
        equipmentDepreciationDeduction := equipmentDepreciation
        vatBenefit := vatBenefit } }

/-- `TaxCalculator.calculateLiniowy` (tax-calculator.ts lines 284-341): the
car-depreciation loop may throw; on success the rest is
`calculateLiniowyCore`. -/
def calculateLiniowy (cfg : ScenarioConfig) : Except String TaxResult :=
  (sumCarDepreciation cfg.carInvestments).map (calculateLiniowyCore cfg)

/-- `TAX_SCALE_BRACKETS` progressive tax (tax-calculator.ts lines 53-58 and
369-377): 12% up to 120,000 of taxable income, 32% on the excess. -/
def progressiveTax (taxableIncome : ℚ) : ℚ :=
  if taxableIncome ≤ 120000 then
    taxableIncome * 0.12
  else
    120000 * 0.12 + (taxableIncome - 120000) * 0.32

/-- The body of `TaxCalculator.calculateSkala` (tax-calculator.ts lines
346-412) after the per-car depreciation sum has been computed, total. -/
def calculateSkalaCore (cfg : ScenarioConfig) (carDepreciation : ℚ) : TaxResult :=
  let grossRevenue := cfg.yearlyRevenueNetto
  let healthInsuranceRates := getHealthInsuranceRates cfg.taxYearConfig
  let equipmentDepreciation := sumEquipmentDepreciation cfg.equipmentInvestments
  let totalCosts := cfg.yearlyFixedCosts + carDepreciation + equipmentDepreciation
  let income := max 0 (grossRevenue - totalCosts)
  let taxableIncome := max 0 (income - 30000)
  let incomeTax := progressiveTax taxableIncome
  let healthInsurance := income * healthInsuranceRates.skala
  let zusTotal := calculateYearlyZUS cfg.zusType cfg.taxYearConfig
  let vatBenefit := scenarioVatBenefit cfg
  let netCashInHand :=
    grossRevenue - totalCosts - incomeTax - healthInsurance - zusTotal + vatBenefit
  { taxationForm := .skala
    grossRevenue := grossRevenue
    totalCosts := totalCosts
    taxableIncome := taxableIncome
    incomeTax := incomeTax
    healthInsurance := healthInsurance
    zusTotal := zusTotal
    netCashInHand := netCashInHand
    breakdown :=
      { carDepreciationDeduction := carDepreciation
        equipmentDepreciationDeduction := equipmentDepreciation
        vatBenefit := vatBenefit } }

/-- `TaxCalculator.calculateSkala` (tax-calculator.ts lines 346-412). -/
def calculateSkala (cfg : ScenarioConfig) : Except String TaxResult :=
  (sumCarDepreciation cfg.carInvestments).map (calculateSkalaCore cfg)

/-- The result triple of `TaxCalculator.compareAll` (tax-calculator.ts lines 417-427). -/
structure ComparisonResult where
  ryczalt : TaxResult
  liniowy : TaxResult
  skala : TaxResult
  deriving DecidableEq, Repr

/-- `TaxCalculator.compareAll` (tax-calculator.ts lines 417-427): evaluates
the three calculators on the same scenario; a throw in `calculateLiniowy` or
`calculateSkala` aborts the whole call (JS exception propagation through the
object literal). -/
def compareAll (cfg : ScenarioConfig) : Except String ComparisonResult :=
  match calculateLiniowy cfg, calculateSkala cfg with
  | .ok l, .ok s => .ok { ryczalt := calculateRyczalt cfg, liniowy := l, skala := s }
  | .error e, _ => .error e
  | .ok _, .error e => .error e

/-!  ContributionCalculator (src/unnamed/part_003). -/

/-- `socialSecurityRates` record inside `TaxYearConfig` (part_003 lines 18-23). -/
structure SocialSecurityRates where
  retirement : ℚ
  disability : ℚ
  accident : ℚ
  sickness : ℚ
  deriving DecidableEq, Repr

/-- `healthInsuranceRate` record inside `TaxYearConfig` (part_003 lines 26-29). -/
structure HealthInsuranceRatePair where
  skala : ℚ
  liniowy : ℚ
  deriving DecidableEq, Repr

/-- `healthInsuranceLimits` record inside `TaxYearConfig` (part_003 lines 31-33). -/
structure HealthInsuranceLimits where
  linear : ℚ
  deriving DecidableEq, Repr

/-- `TaxYearConfig` (part_003 lines 13-34). -/
structure TaxYearConfig where
  year : ℚ
  minimumWageGross : ℚ
  averageWagePrognosis : ℚ
  averageWageQ4PreviousYear : ℚ
  socialSecurityRates : SocialSecurityRates
  workFundRate : ℚ
  solidarityFundRate : ℚ
  healthInsuranceRate : HealthInsuranceRatePair
  minHealthInsuranceLinear : ℚ
  healthInsuranceLimits : HealthInsuranceLimits
  deriving DecidableEq, Repr

/-- `DEFAULT_2026_CONFIG` (part_003 lines 39-64), including the
post-declaration mutation `minHealthInsuranceLinear = minimumWageGross * 0.09`. -/
def DEFAULT_2026_CONFIG : TaxYearConfig :=
  { year := 2026
    minimumWageGross := 4626
    averageWagePrognosis := 7286
    averageWageQ4PreviousYear := 7000
    socialSecurityRates :=
      { retirement := 0.1952, disability := 0.08, accident := 0.0167, sickness := 0.0245 }
    workFundRate := 0.0245
    solidarityFundRate := 0.0245
    healthInsuranceRate := { skala := 0.09, liniowy := 0.049 }
    minHealthInsuranceLinear := 4626 * 0.09
    healthInsuranceLimits := { linear := 11600 } }

/-- `ContributionInput` (part_003 lines 69-77). -/
structure ContributionInput where
  taxationForm : TaxationForm
  zusType : ZusType
  monthlyRevenue : ℚ
  monthlyCosts : ℚ
  monthlySocialSecurityBase : Option ℚ := none
  voluntarySickness : Bool
  yearlyRevenueToDate : Option ℚ := none
  deriving DecidableEq, Repr

/-- The `{amount, deductibleFromIncome, deductibleFromTax}` record returned by
`ContributionCalculator.calculateHealthInsurance` (part_003 lines 182-186). -/
structure HealthInsuranceCalcResult where
  amount : ℚ
  deductibleFromIncome : ℚ
  deductibleFromTax : ℚ
  deriving DecidableEq, Repr

/-- JS truthiness of `input.yearlyRevenueToDate`: truthy iff present and ≠ 0. -/
def ryczaltRevenueTruthy (y : Option ℚ) : Bool :=
  match y with
  | none => false
  | some v => decide (v ≠ 0)

namespace ContributionCalculator

/-- `ContributionCalculator.calculateHealthInsurance` (part_003 lines 178-236).
The ryczałt tier guards `input.yearlyRevenueToDate && input.yearlyRevenueToDate <= 60_000`
and `… <= 300_000` use JS truthiness of the optional revenue, modelled by
`ryczaltRevenueTruthy`: an absent or zero revenue fails both guards and falls
through to the 1.8 multiplier. -/
def calculateHealthInsurance (input : ContributionInput) (config : TaxYearConfig)
    (monthlyIncome : ℚ) : HealthInsuranceCalcResult :=
  match input.taxationForm with
  | .skala =>
      let base := max monthlyIncome config.minimumWageGross
      let amount := base * config.healthInsuranceRate.skala
      { amount := amount, deductibleFromIncome := amount, deductibleFromTax := 0 }
  | .liniowy =>
      let base := max monthlyIncome config.minimumWageGross
      let amount := max (base * config.healthInsuranceRate.liniowy) config.minHealthInsuranceLinear
      { amount := amount, deductibleFromIncome := amount, deductibleFromTax := 0 }
  | .ryczalt =>
      let base := config.averageWageQ4PreviousYear
      let y := input.yearlyRevenueToDate
      let rateMultiplier : ℚ :=
        if ryczaltRevenueTruthy y && decide (y.getD 0 ≤ 60000) then 0.6
        else if ryczaltRevenueTruthy y && decide (y.getD 0 ≤ 300000) then 1.0
        else 1.8
      let amount := base * 0.09 * rateMultiplier
      { amount := amount, deductibleFromIncome := amount * 0.5, deductibleFromTax := 0 }

end ContributionCalculator

/-!  Derived predicates and helpers used by the theorems. -/

/-- A car passes the leasing-parameter guard of `calculateCarDepreciation`:
either it is cash-financed, or all three leasing fields are present and
non-zero (JS truthiness). -/
def carLeaseParamsOk (car : CarInvestment) : Bool :=
  match car.financingMethod with
  | .cash => true
  | .leasing =>
      !(optFalsy car.leasingMonths) && !(optFalsy car.leasingInitialPaymentPercent)
        && !(optFalsy car.leasingBuyoutPercent)

/-- All cars of a scenario pass the leasing-parameter guard. -/
def scenarioLeaseOk (cfg : ScenarioConfig) : Bool :=
  cfg.carInvestments.all carLeaseParamsOk

/-- Replace only the yearly revenue of a scenario, holding every other field
fixed. -/
def setRevenue (cfg : ScenarioConfig) (r : ℚ) : ScenarioConfig :=
  { cfg with yearlyRevenueNetto := r }

/-- Extract the result of a successful regime computation (the error case is
never reached where this is used). -/
def exOkResult (e : Except String TaxResult) : TaxResult :=
  match e with
  | .ok r => r
  | .error _ => default

/-!  Concrete inputs used by the claim theorems, counterexamples and witnesses. -/

/-- The end-to-end scenario of spec §8.5: revenue 180,000, fixed costs 36,000,
small-flexible contribution class, VAT payer, full VAT recovery, no
investments, default 2026 rates. -/
def scn1 : ScenarioConfig :=
  { yearlyRevenueNetto := 180000
    yearlyFixedCosts := 36000
    vatPayer := true
    vatRateMixed := 1
    zusType := .maly_plus
    carInvestments := []
    equipmentInvestments := []
    taxYearConfig := none }

/-- Combustion car priced 150,000, cash, full business use, bought month 1
(spec §8.6). -/
def car3 : CarInvestment :=
  { carPriceNetto := 150000
    engineType := .combustion
    financingMethod := .cash
    usageType := .full_business
    monthOfPurchase := 1 }

/-- Leased combustion car priced 120,000 over the 100,000 ceiling: 36-month
term, 10% down payment, 20% buyout, bought month 1. -/
def car4 : CarInvestment :=
  { carPriceNetto := 120000
    engineType := .combustion
    financingMethod := .leasing
    usageType := .mixed
    leasingInitialPaymentPercent := some 10
    leasingMonths := some 36
    leasingBuyoutPercent := some 20
    monthOfPurchase := 1 }

/-- A leased car whose three leasing parameters are all PRESENT but with a
zero lease term. -/
def carZeroLease : CarInvestment :=
  { carPriceNetto := 120000
    engineType := .combustion
    financingMethod := .leasing
    usageType := .mixed
    leasingInitialPaymentPercent := some 10
    leasingMonths := some 0
    leasingBuyoutPercent := some 20
    monthOfPurchase := 1 }

/-- Scenario containing only `carZeroLease`. -/
def scn5 : ScenarioConfig :=
  { yearlyRevenueNetto := 180000
    yearlyFixedCosts := 36000
    vatPayer := true
    vatRateMixed := 1
    zusType := .maly_plus
    carInvestments := [carZeroLease]
    equipmentInvestments := []
    taxYearConfig := none }

/-- Scenario whose lease-financed car carries all three parameters non-zero,
plus one equipment item. -/
def scn6 : ScenarioConfig :=
  { yearlyRevenueNetto := 180000
    yearlyFixedCosts := 36000
    vatPayer := true
    vatRateMixed := 1
    zusType := .maly_plus
    carInvestments := [car4]
    equipmentInvestments := [{ costNetto := 10000, monthOfPurchase := 1 }]
    taxYearConfig := none }

/-- Flat-rate contribution input with cumulative revenue 180,000 (the revenue
of `scn1`), in the middle tier. -/
def cInputMid : ContributionInput :=
  { taxationForm := .ryczalt
    zusType := .maly_plus
    monthlyRevenue := 15000
    monthlyCosts := 3000
    voluntarySickness := false
    yearlyRevenueToDate := some 180000 }

/-- Flat-rate contribution input with cumulative revenue 30,000 (inside the
lowest tier, non-zero). -/
def cInputLow : ContributionInput :=
  { taxationForm := .ryczalt
    zusType := .maly_plus
    monthlyRevenue := 2500
    monthlyCosts := 0
    voluntarySickness := false
    yearlyRevenueToDate := some 30000 }

/-- Flat-rate contribution input with cumulative revenue exactly 0. -/
def cInputZero : ContributionInput :=
  { taxationForm := .ryczalt
    zusType := .maly_plus
    monthlyRevenue := 0
    monthlyCosts := 0
    voluntarySickness := false
    yearlyRevenueToDate := some 0 }

/-- Flat-rate contribution input with the cumulative revenue absent. -/
def cInputNone : ContributionInput :=
  { taxationForm := .ryczalt
    zusType := .maly_plus
    monthlyRevenue := 0
    monthlyCosts := 0
    voluntarySickness := false
    yearlyRevenueToDate := none }

/-!  Helper lemmas. -/

/-- `max 0` is 1-Lipschitz from the right: raising the argument raises the
clamp by at most the same amount. -/
lemma max0_sub_le {a b : ℚ} (h : a ≤ b) : max 0 b - max 0 a ≤ b - a := by
  rcases max_cases (0 : ℚ) a with ⟨e1, le1⟩ | ⟨e1, le1⟩ <;>
    rcases max_cases (0 : ℚ) b with ⟨e2, le2⟩ | ⟨e2, le2⟩ <;>
      rw [e1, e2] <;> linarith

/-- `min · L` is 1-Lipschitz from the right. -/
lemma min_sub_le {a b L : ℚ} (h : a ≤ b) : min b L - min a L ≤ b - a := by
  rcases min_cases a L with ⟨e1, le1⟩ | ⟨e1, le1⟩ <;>
    rcases min_cases b L with ⟨e2, le2⟩ | ⟨e2, le2⟩ <;>
      rw [e1, e2] <;> linarith

/-- The two-bracket progressive tax is monotone and 0.32-Lipschitz. -/
lemma progressiveTax_mono_lip {t1 t2 : ℚ} (h : t1 ≤ t2) :
    progressiveTax t1 ≤ progressiveTax t2
      ∧ progressiveTax t2 - progressiveTax t1 ≤ (t2 - t1) * 0.32 := by
  unfold progressiveTax
  split_ifs with h1 h2 h2 <;> constructor <;> linarith

/-- A car that fails the leasing-parameter guard makes `calculateCarDepreciation`
throw the leasing error. -/
lemma carDep_error_of_bad (car : CarInvestment) (h : carLeaseParamsOk car = false) :
    calculateCarDepreciation car = .error leasingErrMsg := by
  unfold carLeaseParamsOk at h
  unfold calculateCarDepreciation
  cases hf : car.financingMethod with
  | cash => rw [hf] at h; exact absurd h (by simp)
  | leasing =>
      rw [hf] at h
      cases h1 : optFalsy car.leasingMonths <;>
        cases h2 : optFalsy car.leasingInitialPaymentPercent <;>
          cases h3 : optFalsy car.leasingBuyoutPercent <;>
            simp_all

/-- A car that passes the leasing-parameter guard makes `calculateCarDepreciation`
succeed. -/
lemma carDep_ok_of_good (car : CarInvestment) (h : carLeaseParamsOk car = true) :
    ∃ d, calculateCarDepreciation car = .ok d := by
  unfold carLeaseParamsOk at h
  unfold calculateCarDepreciation
  cases hf : car.financingMethod with
  | cash => exact ⟨_, rfl⟩
  | leasing =>
      rw [hf] at h
      cases h1 : optFalsy car.leasingMonths <;>
        cases h2 : optFalsy car.leasingInitialPaymentPercent <;>
          cases h3 : optFalsy car.leasingBuyoutPercent <;>
            simp_all

/-- The per-car depreciation sum succeeds exactly when every car passes the
leasing-parameter guard, and otherwise fails with the leasing error. -/
lemma sumCarDep_characterization (cars : List CarInvestment) :
    (cars.all carLeaseParamsOk = true → ∃ s, sumCarDepreciation cars = .ok s)
    ∧ (cars.all carLeaseParamsOk = false → sumCarDepreciation cars = .error leasingErrMsg) := by
  induction cars with
  | nil =>
      refine ⟨fun _ => ⟨0, rfl⟩, fun h => absurd h (by simp)⟩
  | cons car rest ih =>
      constructor
      · intro h
        rw [List.all_cons, Bool.and_eq_true] at h
        obtain ⟨d, hd⟩ := carDep_ok_of_good car h.1
        obtain ⟨s, hs⟩ := ih.1 h.2
        exact ⟨d + s, by rw [sumCarDepreciation, hd, hs]⟩
      · intro h
        rw [List.all_cons] at h
        cases hco : carLeaseParamsOk car with
        | false => rw [sumCarDepreciation, carDep_error_of_bad car hco]
        | true =>
            rw [hco, Bool.true_and] at h
            obtain ⟨d, hd⟩ := carDep_ok_of_good car hco
            rw [sumCarDepreciation, hd, ih.2 h]

/-- `netCashInHand` of the linear-tax calculator body, written out. -/
lemma liniowyCore_net (cfg : ScenarioConfig) (d : ℚ) :
    (calculateLiniowyCore cfg d).netCashInHand =
      cfg.yearlyRevenueNetto
        - (cfg.yearlyFixedCosts + d + sumEquipmentDepreciation cfg.equipmentInvestments)
        - max 0 (cfg.yearlyRevenueNetto
            - (cfg.yearlyFixedCosts + d + sumEquipmentDepreciation cfg.equipmentInvestments)) * 0.19
        - min (max 0 (cfg.yearlyRevenueNetto
            - (cfg.yearlyFixedCosts + d + sumEquipmentDepreciation cfg.equipmentInvestments))
              * (getHealthInsuranceRates cfg.taxYearConfig).liniowy)
            (getHealthInsuranceLimit cfg.taxYearConfig)
        - calculateYearlyZUS cfg.zusType cfg.taxYearConfig
        + scenarioVatBenefit cfg := rfl

/-- `netCashInHand` of the progressive-tax calculator body, written out. -/
lemma skalaCore_net (cfg : ScenarioConfig) (d : ℚ) :
    (calculateSkalaCore cfg d).netCashInHand =
      cfg.yearlyRevenueNetto
        - (cfg.yearlyFixedCosts + d + sumEquipmentDepreciation cfg.equipmentInvestments)
        - progressiveTax (max 0 (max 0 (cfg.yearlyRevenueNetto
            - (cfg.yearlyFixedCosts + d + sumEquipmentDepreciation cfg.equipmentInvestments))
              - 30000))
        - max 0 (cfg.yearlyRevenueNetto
            - (cfg.yearlyFixedCosts + d + sumEquipmentDepreciation cfg.equipmentInvestments))
            * (getHealthInsuranceRates cfg.taxYearConfig).skala
        - calculateYearlyZUS cfg.zusType cfg.taxYearConfig
        + scenarioVatBenefit cfg := rfl

/-- Linear-tax net cash, as a function of revenue with default rates, is
monotone. -/
lemma lin_mono_aux (C Z V r1 r2 : ℚ) (hr : r1 ≤ r2) :
    r1 - C - max 0 (r1 - C) * 0.19 - min (max 0 (r1 - C) * 0.049) 11000 - Z + V
      ≤ r2 - C - max 0 (r2 - C) * 0.19 - min (max 0 (r2 - C) * 0.049) 11000 - Z + V := by
  have h1 : max 0 (r1 - C) ≤ max 0 (r2 - C) := max_le_max le_rfl (by linarith)
  have h2 : max 0 (r2 - C) - max 0 (r1 - C) ≤ (r2 - C) - (r1 - C) := max0_sub_le (by linarith)
  have h3 : min (max 0 (r2 - C) * 0.049) 11000 - min (max 0 (r1 - C) * 0.049) 11000
      ≤ max 0 (r2 - C) * 0.049 - max 0 (r1 - C) * 0.049 := min_sub_le (by nlinarith)
  linarith

/-- Progressive-tax net cash, as a function of revenue with default rates, is
monotone. -/
lemma skala_mono_aux (C Z V r1 r2 : ℚ) (hr : r1 ≤ r2) :
    r1 - C - progressiveTax (max 0 (max 0 (r1 - C) - 30000)) - max 0 (r1 - C) * 0.09 - Z + V
      ≤ r2 - C - progressiveTax (max 0 (max 0 (r2 - C) - 30000)) - max 0 (r2 - C) * 0.09 - Z + V := by
  have h1 : max 0 (r1 - C) ≤ max 0 (r2 - C) := max_le_max le_rfl (by linarith)
  have h2 : max 0 (r2 - C) - max 0 (r1 - C) ≤ (r2 - C) - (r1 - C) := max0_sub_le (by linarith)
  have h3 : max 0 (max 0 (r1 - C) - 30000) ≤ max 0 (max 0 (r2 - C) - 30000) :=
    max_le_max le_rfl (by linarith)
  have h4 : max 0 (max 0 (r2 - C) - 30000) - max 0 (max 0 (r1 - C) - 30000)
      ≤ (max 0 (r2 - C) - 30000) - (max 0 (r1 - C) - 30000) := max0_sub_le (by linarith)
  have h5 := progressiveTax_mono_lip h3
  linarith [h5.2]

/-- `netCashInHand` of the flat-rate calculator, written out. -/
lemma ryczalt_net (cfg : ScenarioConfig) :
    (calculateRyczalt cfg).netCashInHand =
      cfg.yearlyRevenueNetto - cfg.yearlyRevenueNetto * 0.12 - 6000
        - calculateYearlyZUS cfg.zusType cfg.taxYearConfig + scenarioVatBenefit cfg := rfl

lemma setRevenue_revenue (cfg : ScenarioConfig) (r : ℚ) :
    (setRevenue cfg r).yearlyRevenueNetto = r := rfl

lemma setRevenue_fixedCosts (cfg : ScenarioConfig) (r : ℚ) :
    (setRevenue cfg r).yearlyFixedCosts = cfg.yearlyFixedCosts := rfl

lemma setRevenue_cars (cfg : ScenarioConfig) (r : ℚ) :
    (setRevenue cfg r).carInvestments = cfg.carInvestments := rfl

lemma setRevenue_equipment (cfg : ScenarioConfig) (r : ℚ) :
    (setRevenue cfg r).equipmentInvestments = cfg.equipmentInvestments := rfl

lemma setRevenue_taxYearConfig (cfg : ScenarioConfig) (r : ℚ) :
    (setRevenue cfg r).taxYearConfig = cfg.taxYearConfig := rfl

lemma setRevenue_zusType (cfg : ScenarioConfig) (r : ℚ) :
    (setRevenue cfg r).zusType = cfg.zusType := rfl

/-- The VAT benefit reads every scenario field except the revenue, so changing
only the revenue leaves it unchanged. -/
lemma scenarioVatBenefit_setRevenue (cfg : ScenarioConfig) (r : ℚ) :
    scenarioVatBenefit (setRevenue cfg r) = scenarioVatBenefit cfg := rfl

/-!  Claim theorems. -/

/-- C1: for the scenario with yearlyRevenueNetto = 180,000, yearlyFixedCosts
= 36,000, contribution class maly_plus, vatPayer = true, vatRateMixed = 1.0,
no investments and the default 2026 rates, `calculateRyczalt` returns
incomeTax = 21,600; `calculateLiniowy` returns taxableIncome = 144,000 and
incomeTax = 27,360; `calculateSkala` returns taxableIncome = 114,000 and
incomeTax = 13,680. -/
theorem C1_end_to_end_example :
    (calculateRyczalt scn1).incomeTax = 21600
    ∧ (calculateLiniowy scn1).map (fun r => (r.taxableIncome, r.incomeTax))
        = Except.ok ((144000 : ℚ), (27360 : ℚ))
    ∧ (calculateSkala scn1).map (fun r => (r.taxableIncome, r.incomeTax))
        = Except.ok ((114000 : ℚ), (13680 : ℚ)) := by
  refine ⟨?_, ?_, ?_⟩ <;>
    simp only [calculateRyczalt, calculateLiniowy, calculateSkala, calculateLiniowyCore,
      calculateSkalaCore, scn1, sumCarDepreciation, sumEquipmentDepreciation,
      scenarioVatBenefit, calculateYearlyZUS, getZUSMonthly, getHealthInsuranceRates,
      getHealthInsuranceLimit, progressiveTax, Except.map, List.map_nil, List.sum_nil] <;>
    norm_num

/-- C2 (counterexample): the flat-rate result's healthInsurance field does
NOT equal the ContributionEngine flat-rate formula: on the §8.5 scenario
(revenue 180,000, middle tier) the result field is the constant 6,000 while
the engine formula `averageWageQ4PreviousYear × 9% × 1.0` gives 630. -/
theorem C2_counterexample :
    (calculateRyczalt scn1).healthInsurance = 6000
    ∧ (ContributionCalculator.calculateHealthInsurance cInputMid DEFAULT_2026_CONFIG 0).amount
        = DEFAULT_2026_CONFIG.averageWageQ4PreviousYear * 0.09 * 1.0
    ∧ (calculateRyczalt scn1).healthInsurance
        ≠ (ContributionCalculator.calculateHealthInsurance cInputMid DEFAULT_2026_CONFIG 0).amount := by
  have h1 : (calculateRyczalt scn1).healthInsurance = 6000 := rfl
  have h2 : (ContributionCalculator.calculateHealthInsurance cInputMid DEFAULT_2026_CONFIG 0).amount
      = 630 := by
    simp only [ContributionCalculator.calculateHealthInsurance, cInputMid, DEFAULT_2026_CONFIG,
      ryczaltRevenueTruthy, Option.getD_some]
    norm_num
  refine ⟨h1, ?_, ?_⟩
  · rw [h2]; norm_num [DEFAULT_2026_CONFIG]
  · rw [h1, h2]; norm_num

/-- C2 (amended): for every scenario, the flat-rate result's healthInsurance
field is the hardcoded approximation 6,000, independent of the rate
configuration and of revenue; the ContributionEngine flat-rate formula is not
consulted. -/
theorem C2_amended_fixed_health (cfg : ScenarioConfig) :
    (calculateRyczalt cfg).healthInsurance = 6000 :=
  rfl

/-- C3: for every cash-financed vehicle bought in month 1..12,
`calculateCarDepreciation` returns min(price, ceiling) × 0.20 × (13 − m) / 12
with ceilings 100,000 / 150,000 / 225,000 per engine class; hence for a
vehicle priced above its ceiling the deduction never exceeds
ceiling × 20% × (months remaining / 12). -/
theorem C3_cash_depreciation (car : CarInvestment)
    (hf : car.financingMethod = FinancingMethod.cash)
    (hm1 : 1 ≤ car.monthOfPurchase) (hm2 : car.monthOfPurchase ≤ 12) :
    calculateCarDepreciation car
      = Except.ok (min car.carPriceNetto (CAR_DEPRECIATION_LIMITS car.engineType) * 0.20
          * (13 - car.monthOfPurchase) / 12)
    ∧ (CAR_DEPRECIATION_LIMITS car.engineType < car.carPriceNetto →
        ∀ d, calculateCarDepreciation car = Except.ok d →
          d ≤ CAR_DEPRECIATION_LIMITS car.engineType * 0.20 * (13 - car.monthOfPurchase) / 12)
    ∧ CAR_DEPRECIATION_LIMITS EngineType.combustion = 100000
    ∧ CAR_DEPRECIATION_LIMITS EngineType.hybrid_plugin = 150000
    ∧ CAR_DEPRECIATION_LIMITS EngineType.electric = 225000 := by
  obtain ⟨price, et, fm, ut, lp, lm, lb, m⟩ := car
  simp only at hf
  subst hf
  refine ⟨rfl, ?_, rfl, rfl, rfl⟩
  intro hlt d hd
  simp only at hlt hd ⊢
  have hcalc : calculateCarDepreciation ⟨price, et, .cash, ut, lp, lm, lb, m⟩
      = Except.ok (min price (CAR_DEPRECIATION_LIMITS et) * 0.20 * (13 - m) / 12) := rfl
  rw [hcalc] at hd
  have hde := Except.ok.inj hd
  rw [← hde, min_eq_right (le_of_lt hlt)]

/-- C3 witness: the concrete case of spec §8.6 — combustion car priced
150,000 (ceiling 100,000), cash, bought month 1 — yields exactly 20,000. -/
theorem C3_witness : calculateCarDepreciation car3 = Except.ok 20000 := by
  have h := (C3_cash_depreciation car3 rfl (by norm_num [car3]) (by norm_num [car3])).1
  rw [h]
  exact congrArg Except.ok (by norm_num [car3, CAR_DEPRECIATION_LIMITS, min_def])

/-- C4: for every lease-financed vehicle with positive price, month 1..12,
term ≥ 1 and positive down-payment and buyout percentages,
`calculateCarDepreciation` returns
downPayment × r + (capital / term) × M × r + capital × 0.05 × M / 12, with
capital = price − downPayment − buyout, r = min(1, ceiling / price) and
M = min(13 − m, term); the interest component is not scaled by r. -/
theorem C4_lease_depreciation (car : CarInvestment) (n p b : ℚ)
    (hf : car.financingMethod = FinancingMethod.leasing)
    (hn : car.leasingMonths = some n)
    (hp : car.leasingInitialPaymentPercent = some p)
    (hb : car.leasingBuyoutPercent = some b)
    (hprice : 0 < car.carPriceNetto)
    (hm1 : 1 ≤ car.monthOfPurchase) (hm2 : car.monthOfPurchase ≤ 12)
    (hn1 : 1 ≤ n) (hp0 : 0 < p) (hb0 : 0 < b) :
    calculateCarDepreciation car
      = Except.ok
          (car.carPriceNetto * (p / 100) * min 1 (CAR_DEPRECIATION_LIMITS car.engineType / car.carPriceNetto)
            + (car.carPriceNetto - car.carPriceNetto * (p / 100) - car.carPriceNetto * (b / 100)) / n
                * min (13 - car.monthOfPurchase) n
                * min 1 (CAR_DEPRECIATION_LIMITS car.engineType / car.carPriceNetto)
            + (car.carPriceNetto - car.carPriceNetto * (p / 100) - car.carPriceNetto * (b / 100))
                * 0.05 * min (13 - car.monthOfPurchase) n / 12) := by
  obtain ⟨price, et, fm, ut, lp, lm, lb, m⟩ := car
  simp only at hf hn hp hb hprice hm1 hm2 ⊢
  subst hf hn hp hb
  have hn0 : n ≠ 0 := ne_of_gt (by linarith)
  have hp' : p ≠ 0 := ne_of_gt hp0
  have hb' : b ≠ 0 := ne_of_gt hb0
  simp only [calculateCarDepreciation, optFalsy, Option.getD_some]
  rw [if_neg (by simp [hn0, hp', hb'])]
  rw [if_neg hprice.ne']

/-- C4 witness: the leased combustion car `car4` (price 120,000, ceiling
100,000, 36-month term, 10% down, 20% buyout, month 1) yields 112600/3. -/
theorem C4_witness : calculateCarDepreciation car4 = Except.ok (112600 / 3) := by
  have h := C4_lease_depreciation car4 36 10 20 rfl rfl rfl rfl
    (by norm_num [car4]) (by norm_num [car4]) (by norm_num [car4])
    (by norm_num) (by norm_num) (by norm_num)
  rw [h]
  exact congrArg Except.ok (by norm_num [car4, CAR_DEPRECIATION_LIMITS, min_def])

/-- C7: the flat-rate health-insurance tier multiplier.  For a positive
cumulative revenue inside the lowest band (30,000 ≤ 60,000) the code returns
base × 9% × 0.6 = 378 as the spec's tier table demands; but for cumulative
revenue 0, and for an absent cumulative revenue, the JS truthiness guard
skips the first two tiers and the code returns base × 9% × 1.8 = 1134
instead of the claimed base × 9% × 0.6. -/
theorem C7_zero_revenue_tier_bug :
    (ContributionCalculator.calculateHealthInsurance cInputLow DEFAULT_2026_CONFIG 0).amount
        = DEFAULT_2026_CONFIG.averageWageQ4PreviousYear * 0.09 * 0.6
    ∧ (ContributionCalculator.calculateHealthInsurance cInputZero DEFAULT_2026_CONFIG 0).amount
        = DEFAULT_2026_CONFIG.averageWageQ4PreviousYear * 0.09 * 1.8
    ∧ (ContributionCalculator.calculateHealthInsurance cInputNone DEFAULT_2026_CONFIG 0).amount
        = DEFAULT_2026_CONFIG.averageWageQ4PreviousYear * 0.09 * 1.8
    ∧ DEFAULT_2026_CONFIG.averageWageQ4PreviousYear * 0.09 * 1.8
        ≠ DEFAULT_2026_CONFIG.averageWageQ4PreviousYear * 0.09 * 0.6 := by
  refine ⟨?_, ?_, ?_, ?_⟩ <;>
    · simp only [ContributionCalculator.calculateHealthInsurance, cInputLow, cInputZero,
        cInputNone, DEFAULT_2026_CONFIG, ryczaltRevenueTruthy, Option.getD_some, Option.getD_none]
      norm_num

/-- C8: `calculateYearlyZUS` ignores the supplied rate configuration — any
two configurations give the same value — and returns the fixed monthly tier
× 12: 0, 7,800, 20,400 and 22,800 for the four contribution classes. -/
theorem C8_zus_config_independent (c1 c2 : Option TaxYearConfigInput) (z : ZusType) :
    calculateYearlyZUS z c1 = calculateYearlyZUS z c2
    ∧ calculateYearlyZUS ZusType.ulga_na_start c1 = 0
    ∧ calculateYearlyZUS ZusType.preferencyjny c1 = 7800
    ∧ calculateYearlyZUS ZusType.maly_plus c1 = 20400
    ∧ calculateYearlyZUS ZusType.duzy c1 = 22800 := by
  refine ⟨rfl, ?_, ?_, ?_, ?_⟩ <;> norm_num [calculateYearlyZUS, getZUSMonthly]

/-- C9: `calculateCarVATBenefit` is price × 0.23 for full-business usage and
price × 0.23 × 0.5 for mixed usage, independent of financing method and
engine class; and in every regime's result the breakdown's vatBenefit is the
sum over cars of the car VAT benefit × vatRateMixed plus the sum over
equipment of cost × 0.23 × vatRateMixed when vatPayer, and 0 otherwise. -/
theorem C9_vat_benefit (car : CarInvestment) (cfg : ScenarioConfig) :
    calculateCarVATBenefit car
      = car.carPriceNetto * 0.23 * (if car.usageType = UsageType.full_business then 1 else 0.5)
    ∧ (∀ fm : FinancingMethod, ∀ et : EngineType,
        calculateCarVATBenefit
            { car with financingMethod := fm, engineType := et }
          = calculateCarVATBenefit car)
    ∧ (calculateRyczalt cfg).breakdown.vatBenefit
        = (if cfg.vatPayer then
            (cfg.carInvestments.map (fun c => calculateCarVATBenefit c * cfg.vatRateMixed)).sum
              + (cfg.equipmentInvestments.map (fun e => e.costNetto * 0.23 * cfg.vatRateMixed)).sum
          else 0)
    ∧ (calculateLiniowy cfg).map (fun r => r.breakdown.vatBenefit)
        = (sumCarDepreciation cfg.carInvestments).map (fun _ =>
            (if cfg.vatPayer then
              (cfg.carInvestments.map (fun c => calculateCarVATBenefit c * cfg.vatRateMixed)).sum
                + (cfg.equipmentInvestments.map (fun e => e.costNetto * 0.23 * cfg.vatRateMixed)).sum
            else 0))
    ∧ (calculateSkala cfg).map (fun r => r.breakdown.vatBenefit)
        = (sumCarDepreciation cfg.carInvestments).map (fun _ =>
            (if cfg.vatPayer then
              (cfg.carInvestments.map (fun c => calculateCarVATBenefit c * cfg.vatRateMixed)).sum
                + (cfg.equipmentInvestments.map (fun e => e.costNetto * 0.23 * cfg.vatRateMixed)).sum
            else 0)) := by
  refine ⟨?_, fun fm et => rfl, rfl, ?_, ?_⟩
  · obtain ⟨price, et, fm, ut, lp, lm, lb, m⟩ := car
    cases ut with
    | mixed =>
        rw [if_neg (by simp)]
        norm_num [calculateCarVATBenefit]
    | full_business =>
        rw [if_pos rfl]
        norm_num [calculateCarVATBenefit]
  · cases hd : sumCarDepreciation cfg.carInvestments with
    | error e => simp [calculateLiniowy, hd, Except.map]
    | ok d => simp only [calculateLiniowy, hd, Except.map]; rfl
  · cases hd : sumCarDepreciation cfg.carInvestments with
    | error e => simp [calculateSkala, hd, Except.map]
    | ok d => simp only [calculateSkala, hd, Except.map]; rfl

/-- C10: a lease-financed vehicle whose lease parameters are present but
zero-valued is rejected exactly like one with the parameter absent:
`calculateCarDepreciation` throws the leasing-parameters error. -/
theorem C10_zero_lease_params (car : CarInvestment)
    (hf : car.financingMethod = FinancingMethod.leasing)
    (h0 : car.leasingMonths = some 0 ∨ car.leasingInitialPaymentPercent = some 0
        ∨ car.leasingBuyoutPercent = some 0) :
    calculateCarDepreciation car = Except.error leasingErrMsg := by
  obtain ⟨price, et, fm, ut, lp, lm, lb, m⟩ := car
  simp only at hf h0
  subst hf
  unfold calculateCarDepreciation
  rcases h0 with h | h | h <;> subst h <;> simp [optFalsy]

/-- C10 witness: the concrete leased car with a present but zero lease term
is rejected with the leasing-parameters error. -/
theorem C10_witness : calculateCarDepreciation carZeroLease = Except.error leasingErrMsg :=
  C10_zero_lease_params carZeroLease rfl (Or.inl rfl)

/-- C5 (counterexample): a scenario whose lease-financed car CARRIES all
three lease parameters (they are present, one of them zero) still aborts
`compareAll` with the leasing-parameters error, refuting "on every scenario
whose lease-financed vehicles all carry the three lease parameters, no error
is raised". -/
theorem C5_counterexample :
    scn5.carInvestments = [carZeroLease]
    ∧ carZeroLease.financingMethod = FinancingMethod.leasing
    ∧ carZeroLease.leasingMonths.isSome = true
    ∧ carZeroLease.leasingInitialPaymentPercent.isSome = true
    ∧ carZeroLease.leasingBuyoutPercent.isSome = true
    ∧ compareAll scn5 = Except.error leasingErrMsg := by
  refine ⟨rfl, rfl, rfl, rfl, rfl, ?_⟩
  have hbad : scn5.carInvestments.all carLeaseParamsOk = false := by
    norm_num [scn5, carZeroLease, carLeaseParamsOk, optFalsy]
  have herr := (sumCarDep_characterization scn5.carInvestments).2 hbad
  have hl : calculateLiniowy scn5 = Except.error leasingErrMsg := by
    unfold calculateLiniowy; rw [herr]; rfl
  have hk : calculateSkala scn5 = Except.error leasingErrMsg := by
    unfold calculateSkala; rw [herr]; rfl
  unfold compareAll
  rw [hl, hk]

/-- C5 (amended): missing OR zero-valued lease parameters abort the whole
scenario computation: `calculateLiniowy`, `calculateSkala` and `compareAll`
fail with the leasing-parameters error exactly when some lease-financed car
has an absent or zero lease term, down-payment percent or buyout percent;
and on every scenario whose lease-financed vehicles carry the three lease
parameters with non-zero values, no error is raised. -/
theorem C5_amended_lease_abort (cfg : ScenarioConfig) :
    (calculateLiniowy cfg = Except.error leasingErrMsg ↔ scenarioLeaseOk cfg = false)
    ∧ (calculateSkala cfg = Except.error leasingErrMsg ↔ scenarioLeaseOk cfg = false)
    ∧ (compareAll cfg = Except.error leasingErrMsg ↔ scenarioLeaseOk cfg = false)
    ∧ (scenarioLeaseOk cfg = true → ∃ r, compareAll cfg = Except.ok r) := by
  have hchar := sumCarDep_characterization cfg.carInvestments
  cases hok : scenarioLeaseOk cfg with
  | true =>
      obtain ⟨s, hs⟩ := hchar.1 hok
      have hl : calculateLiniowy cfg = Except.ok (calculateLiniowyCore cfg s) := by
        unfold calculateLiniowy; rw [hs]; rfl
      have hk : calculateSkala cfg = Except.ok (calculateSkalaCore cfg s) := by
        unfold calculateSkala; rw [hs]; rfl
      have hcmp : compareAll cfg
          = Except.ok (ComparisonResult.mk (calculateRyczalt cfg)
              (calculateLiniowyCore cfg s) (calculateSkalaCore cfg s)) := by
        unfold compareAll; rw [hl, hk]
      have notErrL : ¬ calculateLiniowy cfg = Except.error leasingErrMsg := by
        rw [hl]; simp
      have notErrS : ¬ calculateSkala cfg = Except.error leasingErrMsg := by
        rw [hk]; simp
      have notErrC : ¬ compareAll cfg = Except.error leasingErrMsg := by
        rw [hcmp]; simp
      exact ⟨iff_of_false notErrL (by simp), iff_of_false notErrS (by simp),
        iff_of_false notErrC (by simp), fun _ => ⟨_, hcmp⟩⟩
  | false =>
      have herr := hchar.2 hok
      have hl : calculateLiniowy cfg = Except.error leasingErrMsg := by
        unfold calculateLiniowy; rw [herr]; rfl
      have hk : calculateSkala cfg = Except.error leasingErrMsg := by
        unfold calculateSkala; rw [herr]; rfl
      have hc : compareAll cfg = Except.error leasingErrMsg := by
        unfold compareAll; rw [hl, hk]
      exact ⟨⟨fun _ => rfl, fun _ => hl⟩, ⟨fun _ => rfl, fun _ => hk⟩,
        ⟨fun _ => rfl, fun _ => hc⟩, fun h => Bool.noConfusion h⟩

/-- C5 witness: the scenario `scn6`, whose leased car carries all three
parameters non-zero, computes a full comparison without error. -/
theorem C5_witness : ∃ r, compareAll scn6 = Except.ok r :=
  (C5_amended_lease_abort scn6).2.2.2
    (by norm_num [scenarioLeaseOk, scn6, car4, carLeaseParamsOk, optFalsy])

/-- C6: under the default 2026 rate configuration, each regime's
netCashInHand is monotone non-decreasing in yearlyRevenueNetto, every other
scenario field held fixed. -/
theorem C6_revenue_monotonic (cfg : ScenarioConfig) (r1 r2 : ℚ)
    (hcfg : cfg.taxYearConfig = none) (hr : r1 ≤ r2)
    (l1 l2 s1 s2 : TaxResult)
    (hl1 : calculateLiniowy (setRevenue cfg r1) = Except.ok l1)
    (hl2 : calculateLiniowy (setRevenue cfg r2) = Except.ok l2)
    (hs1 : calculateSkala (setRevenue cfg r1) = Except.ok s1)
    (hs2 : calculateSkala (setRevenue cfg r2) = Except.ok s2) :
    (calculateRyczalt (setRevenue cfg r1)).netCashInHand
        ≤ (calculateRyczalt (setRevenue cfg r2)).netCashInHand
    ∧ l1.netCashInHand ≤ l2.netCashInHand
    ∧ s1.netCashInHand ≤ s2.netCashInHand := by
  have hc1 : sumCarDepreciation (setRevenue cfg r1).carInvestments
      = sumCarDepreciation cfg.carInvestments := rfl
  have hc2 : sumCarDepreciation (setRevenue cfg r2).carInvestments
      = sumCarDepreciation cfg.carInvestments := rfl
  unfold calculateLiniowy at hl1 hl2
  unfold calculateSkala at hs1 hs2
  rw [hc1] at hl1 hs1
  rw [hc2] at hl2 hs2
  cases hd : sumCarDepreciation cfg.carInvestments with
  | error e =>
      rw [hd] at hl1
      exact absurd hl1 (by simp [Except.map])
  | ok d =>
      rw [hd] at hl1 hl2 hs1 hs2
      simp only [Except.map, Except.ok.injEq] at hl1 hl2 hs1 hs2
      subst hl1 hl2 hs1 hs2
      refine ⟨?_, ?_, ?_⟩
      · rw [ryczalt_net, ryczalt_net]
        simp only [scenarioVatBenefit_setRevenue, setRevenue_revenue, setRevenue_zusType,
          setRevenue_taxYearConfig]
        linarith
      · rw [liniowyCore_net, liniowyCore_net]
        simp only [scenarioVatBenefit_setRevenue, setRevenue_revenue, setRevenue_fixedCosts,
          setRevenue_equipment, setRevenue_zusType, setRevenue_taxYearConfig, hcfg,
          getHealthInsuranceRates, getHealthInsuranceLimit]
        exact lin_mono_aux
          (cfg.yearlyFixedCosts + d + sumEquipmentDepreciation cfg.equipmentInvestments)
          (calculateYearlyZUS cfg.zusType none) (scenarioVatBenefit cfg) r1 r2 hr
      · rw [skalaCore_net, skalaCore_net]
        simp only [scenarioVatBenefit_setRevenue, setRevenue_revenue, setRevenue_fixedCosts,
          setRevenue_equipment, setRevenue_zusType, setRevenue_taxYearConfig, hcfg,
          getHealthInsuranceRates]
        exact skala_mono_aux
          (cfg.yearlyFixedCosts + d + sumEquipmentDepreciation cfg.equipmentInvestments)
          (calculateYearlyZUS cfg.zusType none) (scenarioVatBenefit cfg) r1 r2 hr

/-- C6 witness: on the §8.5 scenario, raising the revenue from 100,000 to
200,000 does not decrease any regime's net cash in hand. -/
theorem C6_witness :
    (calculateRyczalt (setRevenue scn1 100000)).netCashInHand
        ≤ (calculateRyczalt (setRevenue scn1 200000)).netCashInHand
    ∧ (calculateLiniowyCore (setRevenue scn1 100000) 0).netCashInHand
        ≤ (calculateLiniowyCore (setRevenue scn1 200000) 0).netCashInHand
    ∧ (calculateSkalaCore (setRevenue scn1 100000) 0).netCashInHand
        ≤ (calculateSkalaCore (setRevenue scn1 200000) 0).netCashInHand :=
  C6_revenue_monotonic scn1 100000 200000 rfl (by norm_num) _ _ _ _ rfl rfl rfl rfl

end TaxCalc
